import Mathlib

/-!
Verification of the DeltaCalc ROI calculator
(`src/delta_one_roi_calculator_petg_react.jsx`).

The calculation core of the repository is the pure function `computeROI`
together with the self-check logic (`approxEqual`, the baseline parameters
and the expected values of the test panel).  All arithmetic in the source
is JavaScript double-precision arithmetic on exact decimal literals; the
shallow embedding below models the numbers as rationals (`ℚ`), so that
every formula of the source is represented exactly and every comparison is
decidable.
-/

namespace DeltaCalc

/-- Input record of the calculator (source lines 23–36): twelve numeric
fields. -/
structure ROIParams where
  webWidth : ℚ
  jobsPerShift : ℚ
  shiftsPerDay : ℚ
  daysPerYear : ℚ
  stopsPerJobBaseline : ℚ
  reductionPercent : ℚ
  wastePerStopM : ℚ
  speedMPerMin : ℚ
  uptimePercent : ℚ
  hoursPerShift : ℚ
  substratePrice : ℚ
  haasPrice : ℚ
  deriving Repr, DecidableEq

/-- Output record of the calculator (source lines 38–49): ten numeric
fields. -/
structure ROIResult where
  jobsPerDay : ℚ
  jobsPerYear : ℚ
  m2PerStop : ℚ
  m2CalagePerYear : ℚ
  printedLengthPerYear : ℚ
  m2ThreeMmPerYear : ℚ
  euroCalage : ℚ
  euroThreeMm : ℚ
  euroTotal : ℚ
  euroNet : ℚ
  deriving Repr, DecidableEq

/-- The list of the input fields of an `ROIParams`, in the order of their
declaration in the source (lines 23–36). -/
def ROIParams.fields (p : ROIParams) : List ℚ :=
  [p.webWidth, p.jobsPerShift, p.shiftsPerDay, p.daysPerYear,
   p.stopsPerJobBaseline, p.reductionPercent, p.wastePerStopM,
   p.speedMPerMin, p.uptimePercent, p.hoursPerShift,
   p.substratePrice, p.haasPrice]

/-- The list of the output fields of an `ROIResult`, in the order of their
declaration in the source (lines 38–49). -/
def ROIResult.fields (r : ROIResult) : List ℚ :=
  [r.jobsPerDay, r.jobsPerYear, r.m2PerStop, r.m2CalagePerYear,
   r.printedLengthPerYear, r.m2ThreeMmPerYear, r.euroCalage,
   r.euroThreeMm, r.euroTotal, r.euroNet]

/-- The pure calculation (source lines 52–82), transcribed let-for-let. -/
def computeROI (p : ROIParams) : ROIResult :=
  let jobsPerDay := p.jobsPerShift * p.shiftsPerDay
  let jobsPerYear := jobsPerDay * p.daysPerYear
  let stopsAvoidedPerJob := (p.stopsPerJobBaseline * p.reductionPercent) / 100
  let m2PerStop := p.webWidth * p.wastePerStopM
  let m2CalagePerYear := m2PerStop * stopsAvoidedPerJob * jobsPerYear
  let minutesPerDay := p.hoursPerShift * 60 * p.shiftsPerDay
  let printedLengthPerDay := p.speedMPerMin * (p.uptimePercent / 100) * minutesPerDay
  let printedLengthPerYear := printedLengthPerDay * p.daysPerYear
  let m2ThreeMmPerYear := 0.003 * printedLengthPerYear
  let euroCalage := m2CalagePerYear * p.substratePrice
  let euroThreeMm := m2ThreeMmPerYear * p.substratePrice
  let euroTotal := euroCalage + euroThreeMm
  let euroNet := euroTotal - p.haasPrice
  { jobsPerDay := jobsPerDay
    jobsPerYear := jobsPerYear
    m2PerStop := m2PerStop
    m2CalagePerYear := m2CalagePerYear
    printedLengthPerYear := printedLengthPerYear
    m2ThreeMmPerYear := m2ThreeMmPerYear
    euroCalage := euroCalage
    euroThreeMm := euroThreeMm
    euroTotal := euroTotal
    euroNet := euroNet }

/-- The intermediate `stopsAvoidedPerJob` of `computeROI` (source line 56;
recomputed by the shell at line 119). -/
def stopsAvoidedPerJob (p : ROIParams) : ℚ :=
  (p.stopsPerJobBaseline * p.reductionPercent) / 100

/-- The approximate-equality check of the test panel (source lines
427–430), with the default relative tolerance `0.001`. -/
def approxEqual (actual expected : ℚ) (tolerancePct : ℚ := 0.001) : Bool :=
  decide (|actual - expected| ≤ |expected| * tolerancePct)

/-- The fixed baseline parameters of the test panel (source lines
433–446); they coincide with the UI defaults (source lines 86–98). -/
def baselineParams : ROIParams :=
  { webWidth := 0.33
    jobsPerShift := 6
    shiftsPerDay := 2
    daysPerYear := 250
    stopsPerJobBaseline := 6
    reductionPercent := 50
    wastePerStopM := 100
    speedMPerMin := 165
    uptimePercent := 60
    hoursPerShift := 8
    substratePrice := 0.6
    haasPrice := 20000 }

/-- Expected makeready area of the test panel, computed by the independent
literal formula of source line 450. -/
def expectedM2CalagePerYear : ℚ := 0.33 * 100 * (6 * 0.5) * (6 * 2 * 250)

/-- Expected −3 mm area of the test panel, computed by the independent
literal formula of source line 451. -/
def expectedM2ThreeMmPerYear : ℚ := 0.003 * (165 * 0.6 * (8 * 60 * 2) * 250)

/-- The self-test list of the test panel (source lines 454–457): each
entry pairs a test name with its pass verdict. -/
def selfTests : List (String × Bool) :=
  [("Calage m²/year",
      approxEqual (computeROI baselineParams).m2CalagePerYear expectedM2CalagePerYear),
   ("−3 mm m²/year",
      approxEqual (computeROI baselineParams).m2ThreeMmPerYear expectedM2ThreeMmPerYear)]

/-- The twelve-field non-negativity assumption on the inputs. -/
def ROIParams.Nonneg (p : ROIParams) : Prop :=
  0 ≤ p.webWidth ∧ 0 ≤ p.jobsPerShift ∧ 0 ≤ p.shiftsPerDay ∧
  0 ≤ p.daysPerYear ∧ 0 ≤ p.stopsPerJobBaseline ∧ 0 ≤ p.reductionPercent ∧
  0 ≤ p.wastePerStopM ∧ 0 ≤ p.speedMPerMin ∧ 0 ≤ p.uptimePercent ∧
  0 ≤ p.hoursPerShift ∧ 0 ≤ p.substratePrice ∧ 0 ≤ p.haasPrice

instance (p : ROIParams) : Decidable p.Nonneg := by
  unfold ROIParams.Nonneg; infer_instance

/-- Baseline parameters with the substrate price made negative, a
degenerate input admitted by the engine. -/
def negPriceParams : ROIParams := { baselineParams with substratePrice := -1 }

/-- Baseline parameters with `reductionPercent` set to `0`. -/
def zeroReductionParams : ROIParams := { baselineParams with reductionPercent := 0 }

/-- Baseline parameters with `daysPerYear` set to `0`. -/
def zeroDaysParams : ROIParams := { baselineParams with daysPerYear := 0 }

/-- Claim C1: on the baseline input, `computeROI` yields jobsPerYear = 3000,
m2PerStop = 33, m2CalagePerYear = 297000, printedLengthPerYear =
23760000, m2ThreeMmPerYear = 71280, euroCalage = 178200, euroThreeMm =
42768, euroTotal = 220968 and euroNet = 200968 (the rational embedding
makes the floating-point-tolerance equalities exact). -/
theorem computeROI_baseline_values :
    (computeROI baselineParams).jobsPerYear = 3000 ∧
    (computeROI baselineParams).m2PerStop = 33 ∧
    (computeROI baselineParams).m2CalagePerYear = 297000 ∧
    (computeROI baselineParams).printedLengthPerYear = 23760000 ∧
    (computeROI baselineParams).m2ThreeMmPerYear = 71280 ∧
    (computeROI baselineParams).euroCalage = 178200 ∧
    (computeROI baselineParams).euroThreeMm = 42768 ∧
    (computeROI baselineParams).euroTotal = 220968 ∧
    (computeROI baselineParams).euroNet = 200968 := by
  simp only [computeROI, baselineParams]
  norm_num

/-- Claim C2: for every input, each output field of `computeROI` satisfies the
fixed formula sequence of spec §4.1, with the fractional
`stopsAvoidedPerJob` not rounded, the fixed constant 0.003, and the exact
net identity `euroNet = euroTotal − haasPrice`. -/
theorem computeROI_formulas (p : ROIParams) :
    (computeROI p).jobsPerYear = p.jobsPerShift * p.shiftsPerDay * p.daysPerYear ∧
    stopsAvoidedPerJob p = p.stopsPerJobBaseline * p.reductionPercent / 100 ∧
    (computeROI p).m2PerStop = p.webWidth * p.wastePerStopM ∧
    (computeROI p).m2CalagePerYear =
      (computeROI p).m2PerStop * stopsAvoidedPerJob p * (computeROI p).jobsPerYear ∧
    (computeROI p).printedLengthPerYear =
      p.speedMPerMin * (p.uptimePercent / 100) * p.hoursPerShift * 60 *
        p.shiftsPerDay * p.daysPerYear ∧
    (computeROI p).m2ThreeMmPerYear = 0.003 * (computeROI p).printedLengthPerYear ∧
    (computeROI p).euroCalage = (computeROI p).m2CalagePerYear * p.substratePrice ∧
    (computeROI p).euroThreeMm = (computeROI p).m2ThreeMmPerYear * p.substratePrice ∧
    (computeROI p).euroTotal = (computeROI p).euroCalage + (computeROI p).euroThreeMm ∧
    (computeROI p).euroNet = (computeROI p).euroTotal - p.haasPrice := by
  refine ⟨?_, ?_, ?_, ?_, ?_, ?_, ?_, ?_, ?_, ?_⟩ <;>
    (simp only [computeROI, stopsAvoidedPerJob]; try ring)

/-- Counterexample to claim C3: the result record of `computeROI` does not contain
twelve fields; at the baseline input its field list has length ten. -/
theorem computeROI_not_twelve_outputs :
    ¬ (ROIResult.fields (computeROI baselineParams)).length = 12 := by
  decide

/-- Claim C3 amended: `computeROI` derives the ten fields of its output record
from the twelve fields of its input record. -/
theorem computeROI_ten_outputs_of_twelve_inputs (p : ROIParams) :
    (ROIParams.fields p).length = 12 ∧
    (ROIResult.fields (computeROI p)).length = 10 := by
  exact ⟨rfl, rfl⟩

/-- Counterexample to claim C4: with a negative substrate price (a degenerate input
the spec admits), the `euroCalage` field of `computeROI` is negative, so
non-negativity of every field other than `euroNet` fails as an
unconditional statement. -/
theorem computeROI_nonneg_fails_on_negative_price :
    ¬ (0 ≤ (computeROI negPriceParams).euroCalage) := by
  simp only [computeROI, negPriceParams, baselineParams]
  norm_num

/-- Claim C4 amended: when all twelve input fields are non-negative, every field
of `computeROI p` other than `euroNet` is non-negative. -/
theorem computeROI_nonneg_of_nonneg_inputs (p : ROIParams) (h : p.Nonneg) :
    0 ≤ (computeROI p).jobsPerDay ∧
    0 ≤ (computeROI p).jobsPerYear ∧
    0 ≤ (computeROI p).m2PerStop ∧
    0 ≤ (computeROI p).m2CalagePerYear ∧
    0 ≤ (computeROI p).printedLengthPerYear ∧
    0 ≤ (computeROI p).m2ThreeMmPerYear ∧
    0 ≤ (computeROI p).euroCalage ∧
    0 ≤ (computeROI p).euroThreeMm ∧
    0 ≤ (computeROI p).euroTotal := by
  obtain ⟨hw, hj, hs, hd, hb, hr, hwm, hsp, hu, hh, hpr, hha⟩ := h
  simp only [computeROI]
  refine ⟨?_, ?_, ?_, ?_, ?_, ?_, ?_, ?_, ?_⟩ <;> positivity

/-- Witness for claim C4: the baseline input is non-negative and the amended theorem
applies to it. -/
theorem computeROI_nonneg_of_nonneg_inputs_witness :
    baselineParams.Nonneg ∧
    (0 ≤ (computeROI baselineParams).jobsPerDay ∧
     0 ≤ (computeROI baselineParams).jobsPerYear ∧
     0 ≤ (computeROI baselineParams).m2PerStop ∧
     0 ≤ (computeROI baselineParams).m2CalagePerYear ∧
     0 ≤ (computeROI baselineParams).printedLengthPerYear ∧
     0 ≤ (computeROI baselineParams).m2ThreeMmPerYear ∧
     0 ≤ (computeROI baselineParams).euroCalage ∧
     0 ≤ (computeROI baselineParams).euroThreeMm ∧
     0 ≤ (computeROI baselineParams).euroTotal) :=
  ⟨by norm_num [ROIParams.Nonneg, baselineParams],
   computeROI_nonneg_of_nonneg_inputs baselineParams
     (by norm_num [ROIParams.Nonneg, baselineParams])⟩

/-- Claim C5: the self-check harness consists of exactly the two named checks on
`m2CalagePerYear` and `m2ThreeMmPerYear` against the independently
computed literal expected values, both of which pass, and the
approximate-equality test is the relative-tolerance comparison
`|actual − expected| ≤ |expected| × 0.001`. -/
theorem selfTests_pass :
    selfTests = [("Calage m²/year", true), ("−3 mm m²/year", true)] ∧
    (∀ a e : ℚ, approxEqual a e = true ↔ |a - e| ≤ |e| * 0.001) := by
  have e1 : (computeROI baselineParams).m2CalagePerYear = expectedM2CalagePerYear := by
    simp only [computeROI, baselineParams, expectedM2CalagePerYear]
    norm_num
  have e2 : (computeROI baselineParams).m2ThreeMmPerYear = expectedM2ThreeMmPerYear := by
    simp only [computeROI, baselineParams, expectedM2ThreeMmPerYear]
    norm_num
  have h1 : approxEqual (computeROI baselineParams).m2CalagePerYear
      expectedM2CalagePerYear = true := by
    rw [e1, approxEqual]
    simp only [sub_self, abs_zero, decide_eq_true_eq]
    positivity
  have h2 : approxEqual (computeROI baselineParams).m2ThreeMmPerYear
      expectedM2ThreeMmPerYear = true := by
    rw [e2, approxEqual]
    simp only [sub_self, abs_zero, decide_eq_true_eq]
    positivity
  refine ⟨?_, ?_⟩
  · simp only [selfTests, h1, h2]
  · intro a e
    simp [approxEqual]

/-- Claim C6: if `reductionPercent = 0` then `stopsAvoidedPerJob = 0`,
`m2CalagePerYear = 0` and `euroCalage = 0`, regardless of the other
inputs. -/
theorem computeROI_zero_reduction (p : ROIParams) (h : p.reductionPercent = 0) :
    stopsAvoidedPerJob p = 0 ∧
    (computeROI p).m2CalagePerYear = 0 ∧
    (computeROI p).euroCalage = 0 := by
  simp [computeROI, stopsAvoidedPerJob, h]

/-- Witness for claim C6: the theorem applied at the baseline input with the
reduction set to zero. -/
theorem computeROI_zero_reduction_witness :
    zeroReductionParams.reductionPercent = 0 ∧
    (stopsAvoidedPerJob zeroReductionParams = 0 ∧
     (computeROI zeroReductionParams).m2CalagePerYear = 0 ∧
     (computeROI zeroReductionParams).euroCalage = 0) :=
  ⟨by decide, computeROI_zero_reduction zeroReductionParams (by decide)⟩

/-- Claim C7: if `daysPerYear = 0` then `jobsPerYear`, `printedLengthPerYear`,
both area savings and both monetary savings (and their total) are `0`,
and `euroNet = −haasPrice` exactly. -/
theorem computeROI_zero_days (p : ROIParams) (h : p.daysPerYear = 0) :
    (computeROI p).jobsPerYear = 0 ∧
    (computeROI p).printedLengthPerYear = 0 ∧
    (computeROI p).m2CalagePerYear = 0 ∧
    (computeROI p).m2ThreeMmPerYear = 0 ∧
    (computeROI p).euroCalage = 0 ∧
    (computeROI p).euroThreeMm = 0 ∧
    (computeROI p).euroTotal = 0 ∧
    (computeROI p).euroNet = -p.haasPrice := by
  simp [computeROI, h]

/-- Witness for claim C7: the theorem applied at the baseline input with
`daysPerYear = 0`. -/
theorem computeROI_zero_days_witness :
    zeroDaysParams.daysPerYear = 0 ∧
    ((computeROI zeroDaysParams).jobsPerYear = 0 ∧
     (computeROI zeroDaysParams).printedLengthPerYear = 0 ∧
     (computeROI zeroDaysParams).m2CalagePerYear = 0 ∧
     (computeROI zeroDaysParams).m2ThreeMmPerYear = 0 ∧
     (computeROI zeroDaysParams).euroCalage = 0 ∧
     (computeROI zeroDaysParams).euroThreeMm = 0 ∧
     (computeROI zeroDaysParams).euroTotal = 0 ∧
     (computeROI zeroDaysParams).euroNet = -zeroDaysParams.haasPrice) :=
  ⟨by decide, computeROI_zero_days zeroDaysParams (by decide)⟩

/-- Claim C8: `m2PerStop` is exactly proportional to `webWidth` and to
`wastePerStopM` holding all other fields fixed, and `euroTotal` is
exactly proportional to `substratePrice`: scaling the input field by any
factor `k` scales the output field by exactly `k`. -/
theorem computeROI_linearity (p : ROIParams) (k : ℚ) :
    (computeROI { p with webWidth := k * p.webWidth }).m2PerStop =
      k * (computeROI p).m2PerStop ∧
    (computeROI { p with wastePerStopM := k * p.wastePerStopM }).m2PerStop =
      k * (computeROI p).m2PerStop ∧
    (computeROI { p with substratePrice := k * p.substratePrice }).euroTotal =
      k * (computeROI p).euroTotal := by
  refine ⟨?_, ?_, ?_⟩ <;> (simp only [computeROI]; ring)

/-- Claim C9: `computeROI` is deterministic: identical inputs yield identical
results, with no hidden state influencing the mapping. -/
theorem computeROI_deterministic (p q : ROIParams) (h : p = q) :
    computeROI p = computeROI q := by
  rw [h]

/-- Witness for claim C9: two invocations on the baseline input yield identical
results. -/
theorem computeROI_deterministic_witness :
    baselineParams = baselineParams ∧
    computeROI baselineParams = computeROI baselineParams :=
  ⟨rfl, computeROI_deterministic baselineParams baselineParams rfl⟩

/-- Claim C10: with the default tolerance, `approxEqual actual 0` returns `true`
iff `actual = 0`: a zero expected value collapses the relative tolerance
to zero and no absolute epsilon is applied. -/
theorem approxEqual_zero_expected (a : ℚ) :
    approxEqual a 0 = true ↔ a = 0 := by
  simp [approxEqual, abs_nonpos_iff]

end DeltaCalc
